import Mathlib

/-!
Shallow embedding of the navigation and modal-interaction core of the
biblios terminal reader (src/app.rs and its supporting modules).

Rust structures become Lean structures; methods on `App` that mutate
`self` and return `Result<()>` become functions `App → Except Unit App`
(the core only ever distinguishes success from failure, so the error
type is collapsed to `Unit`).  The SQLite-backed `BibleLoader` is the
external Document Provider and is carried as a function parameter
`String → Nat → Except Unit Chapter` inside the state, mirroring the
`loader: Option<BibleLoader>` field.  Machine integers (`u32`, `usize`)
become `Nat`; Rust's `saturating_sub` is Lean's truncated `Nat`
subtraction.
-/

namespace Biblios

/-- bible/mod.rs: `VerseReference`. -/
structure VerseReference where
  book : String
  chapter : Nat
  verse : Nat
deriving DecidableEq, Repr

/-- bible/mod.rs: `Verse`. -/
structure Verse where
  reference : VerseReference
  text : String
deriving DecidableEq, Repr

/-- bible/mod.rs: `Chapter`. -/
structure Chapter where
  book : String
  chapter_number : Nat
  verses : List Verse
deriving DecidableEq, Repr

/-- bible/mod.rs: `Testament`. -/
inductive Testament where
  | Old
  | New
deriving DecidableEq, Repr

/-- An entry of `BOOK_ORDER`: (short name, full name, testament, chapter count). -/
abbrev BookEntry := String × String × Testament × Nat

/-- bible/mod.rs: the static `BOOK_ORDER` table of 66 books. -/
def BOOK_ORDER : List BookEntry := [
  ("Gen", "Genesis", Testament.Old, 50),
  ("Exod", "Exodus", Testament.Old, 40),
  ("Lev", "Leviticus", Testament.Old, 27),
  ("Num", "Numbers", Testament.Old, 36),
  ("Deut", "Deuteronomy", Testament.Old, 34),
  ("Josh", "Joshua", Testament.Old, 24),
  ("Judg", "Judges", Testament.Old, 21),
  ("Ruth", "Ruth", Testament.Old, 4),
  ("1Sam", "1 Samuel", Testament.Old, 31),
  ("2Sam", "2 Samuel", Testament.Old, 24),
  ("1Kgs", "1 Kings", Testament.Old, 22),
  ("2Kgs", "2 Kings", Testament.Old, 25),
  ("1Chr", "1 Chronicles", Testament.Old, 29),
  ("2Chr", "2 Chronicles", Testament.Old, 36),
  ("Ezra", "Ezra", Testament.Old, 10),
  ("Neh", "Nehemiah", Testament.Old, 13),
  ("Esth", "Esther", Testament.Old, 10),
  ("Job", "Job", Testament.Old, 42),
  ("Ps", "Psalms", Testament.Old, 150),
  ("Prov", "Proverbs", Testament.Old, 31),
  ("Eccl", "Ecclesiastes", Testament.Old, 12),
  ("Song", "Song of Solomon", Testament.Old, 8),
  ("Isa", "Isaiah", Testament.Old, 66),
  ("Jer", "Jeremiah", Testament.Old, 52),
  ("Lam", "Lamentations", Testament.Old, 5),
  ("Ezek", "Ezekiel", Testament.Old, 48),
  ("Dan", "Daniel", Testament.Old, 12),
  ("Hos", "Hosea", Testament.Old, 14),
  ("Joel", "Joel", Testament.Old, 3),
  ("Amos", "Amos", Testament.Old, 9),
  ("Obad", "Obadiah", Testament.Old, 1),
  ("Jonah", "Jonah", Testament.Old, 4),
  ("Mic", "Micah", Testament.Old, 7),
  ("Nah", "Nahum", Testament.Old, 3),
  ("Hab", "Habakkuk", Testament.Old, 3),
  ("Zeph", "Zephaniah", Testament.Old, 3),
  ("Hag", "Haggai", Testament.Old, 2),
  ("Zech", "Zechariah", Testament.Old, 14),
  ("Mal", "Malachi", Testament.Old, 4),
  ("Matt", "Matthew", Testament.New, 28),
  ("Mark", "Mark", Testament.New, 16),
  ("Luke", "Luke", Testament.New, 24),
  ("John", "John", Testament.New, 21),
  ("Acts", "Acts", Testament.New, 28),
  ("Rom", "Romans", Testament.New, 16),
  ("1Cor", "1 Corinthians", Testament.New, 16),
  ("2Cor", "2 Corinthians", Testament.New, 13),
  ("Gal", "Galatians", Testament.New, 6),
  ("Eph", "Ephesians", Testament.New, 6),
  ("Phil", "Philippians", Testament.New, 4),
  ("Col", "Colossians", Testament.New, 4),
  ("1Thess", "1 Thessalonians", Testament.New, 5),
  ("2Thess", "2 Thessalonians", Testament.New, 3),
  ("1Tim", "1 Timothy", Testament.New, 6),
  ("2Tim", "2 Timothy", Testament.New, 4),
  ("Titus", "Titus", Testament.New, 3),
  ("Phlm", "Philemon", Testament.New, 1),
  ("Heb", "Hebrews", Testament.New, 13),
  ("Jas", "James", Testament.New, 5),
  ("1Pet", "1 Peter", Testament.New, 5),
  ("2Pet", "2 Peter", Testament.New, 3),
  ("1John", "1 John", Testament.New, 5),
  ("2John", "2 John", Testament.New, 1),
  ("3John", "3 John", Testament.New, 1),
  ("Jude", "Jude", Testament.New, 1),
  ("Rev", "Revelation", Testament.New, 22)]

/-- bible/mod.rs: `get_chapter_count` — find by short or full name, 0 if absent. -/
def get_chapter_count (book_name : String) : Nat :=
  match BOOK_ORDER.find? (fun e => e.1 == book_name || e.2.1 == book_name) with
  | some e => e.2.2.2
  | none => 0

/-- ui/themes.rs: the seven built-in theme values (the color tables themselves
are out of scope; each is represented by its identity). -/
inductive ThemeV where
  | dark
  | gruvboxDark
  | nord
  | solarizedDark
  | light
  | dracula
  | monokai
deriving DecidableEq, Repr

/-- ui/themes.rs: `get_theme` — resolve a theme by lowercased name, defaulting
to the dark theme. -/
def get_theme (name : String) : ThemeV :=
  match name.toLower with
  | "dark" => .dark
  | "gruvbox" => .gruvboxDark
  | "gruvbox-dark" => .gruvboxDark
  | "nord" => .nord
  | "solarized" => .solarizedDark
  | "solarized-dark" => .solarizedDark
  | "light" => .light
  | "dracula" => .dracula
  | "monokai" => .monokai
  | _ => .dark

/-- ui/themes.rs: `available_themes`. -/
def available_themes : List String :=
  ["Dark", "Gruvbox Dark", "Nord", "Solarized Dark", "Light", "Dracula", "Monokai"]

/-- config/settings.rs: the fields of `Settings` the core touches. -/
structure Settings where
  theme : String
  show_verse_numbers : Bool
  verse_spacing : Bool
deriving DecidableEq, Repr

/-- config/state.rs: `ReadingState` (the persisted reading position; the
`last_updated` timestamp is written only at save time). -/
structure ReadingState where
  current_verse : Option VerseReference
  current_book : Option String
  current_chapter : Option Nat
  current_verse_index : Nat
deriving DecidableEq, Repr

/-- ui/verse_selector.rs: `SelectorStep`. -/
inductive SelectorStep where
  | Book
  | Chapter
  | Verse
deriving DecidableEq, Repr

/-- app.rs: `ViewMode`. -/
inductive ViewMode where
  | Reader
  | Search
  | Bookmarks
  | Settings
  | Help
deriving DecidableEq, Repr

/-- input/mod.rs: `Action` — the abstract input intents. -/
inductive Action where
  | NextVerse
  | PreviousVerse
  | ScrollDown
  | ScrollUp
  | PageDown
  | PageUp
  | GoToTop
  | GoToBottom
  | OpenSearch
  | SearchNext
  | SearchPrevious
  | ToggleBookmark
  | OpenBookmarks
  | OpenVerseSelector
  | SelectorUp
  | SelectorDown
  | SelectorSelect
  | SelectorBack
  | OpenSettings
  | OpenHelp
  | Quit
  | Enter
  | Escape
  | Tab
  | ShiftTab
  | Char (c : Char)
  | Backspace
  | Delete
  | NoAction
deriving DecidableEq, Repr

/-- The Document Provider contract (bible/loader.rs `load_chapter`): the core
only distinguishes success from failure, so the error type is `Unit`. -/
abbrev Loader := String → Nat → Except Unit Chapter

/-- The persistence collaborator behind `Settings::save` /
`BookmarkManager::save` (a filesystem write the core only sees as success
or failure); carried as a function of the value being written, like the
loader.  When a save fails mid-arm the source propagates the `Err` out of
`handle_action` with `?` and the main loop terminates (main.rs:84), so
the embedding returns only the error. -/
abbrev Save (α : Type) := α → Except Unit Unit

/-- app.rs: the `App` state, field for field (the `BookmarkManager` is
represented by its list of bookmarked references; `settings_save` and
`bookmarks_save` are the external persistence collaborators invoked by
`settings.save()` and `bookmarks.save()`). -/
structure App where
  settings : Settings
  bookmarks : List VerseReference
  state : ReadingState
  theme : ThemeV
  loader : Option Loader
  settings_save : Save Settings
  bookmarks_save : Save (List VerseReference)
  current_chapter : Option Chapter
  view_mode : ViewMode
  search_query : String
  search_results : List VerseReference
  search_selected : Nat
  current_verse_index : Nat
  scroll_offset : Nat
  bookmark_selected : Nat
  vim_normal_mode : Bool
  selector_open : Bool
  selector_step : SelectorStep
  selector_search : String
  selector_index : Nat
  selector_selected_book : Option String
  selector_selected_chapter : Option Nat
  settings_open : Bool
  help_open : Bool
  settings_selected_index : Nat
  theme_picker_open : Bool
  theme_picker_index : Nat
  should_quit : Bool

/-- app.rs: `App::load_current_chapter` — loads the persisted position's
chapter when a loader, book and chapter are all present, propagating the
loader's error, and restores `current_verse_index` from the persisted state. -/
def load_current_chapter (app : App) : Except Unit App :=
  match app.loader, app.state.current_book, app.state.current_chapter with
  | some loader, some book, some chapter =>
    match loader book chapter with
    | .ok ch =>
      .ok { app with current_chapter := some ch,
                     current_verse_index := app.state.current_verse_index }
    | .error e => .error e
  | _, _, _ => .ok app

/-- app.rs: `VIEWPORT_HEIGHT` inside `adjust_scroll_for_current_verse`. -/
def VIEWPORT_HEIGHT : Nat := 30

/-- app.rs: `App::adjust_scroll_for_current_verse` — viewport follow. -/
def adjust_scroll_for_current_verse (app : App) : App :=
  if app.current_verse_index < app.scroll_offset then
    { app with scroll_offset := app.current_verse_index }
  else if app.current_verse_index ≥ app.scroll_offset + VIEWPORT_HEIGHT then
    { app with scroll_offset := app.current_verse_index - (VIEWPORT_HEIGHT - 1) }
  else
    app

/-- app.rs: `App::try_next_book`. -/
def try_next_book (app : App) : Except Unit App :=
  match app.state.current_book with
  | some current_book =>
    match BOOK_ORDER.findIdx? (fun e => e.1 == current_book) with
    | some current_idx =>
      if current_idx + 1 < BOOK_ORDER.length then
        let next := BOOK_ORDER.getD (current_idx + 1) ("", "", Testament.Old, 0)
        let app1 := { app with state := { app.state with
                        current_book := some next.1,
                        current_chapter := some 1 } }
        match load_current_chapter app1 with
        | .ok app2 => .ok { app2 with current_verse_index := 0 }
        | .error e => .error e
      else .ok app
    | none => .ok app
  | none => .ok app

/-- app.rs: `App::try_previous_book`. -/
def try_previous_book (app : App) : Except Unit App :=
  match app.state.current_book with
  | some current_book =>
    match BOOK_ORDER.findIdx? (fun e => e.1 == current_book) with
    | some current_idx =>
      if current_idx > 0 then
        let prev := BOOK_ORDER.getD (current_idx - 1) ("", "", Testament.Old, 0)
        let app1 := { app with state := { app.state with
                        current_book := some prev.1,
                        current_chapter := some prev.2.2.2 } }
        match load_current_chapter app1 with
        | .ok app2 =>
          match app2.current_chapter with
          | some chapter =>
            .ok { app2 with current_verse_index := chapter.verses.length - 1 }
          | none => .ok app2
        | .error e => .error e
      else .ok app
    | none => .ok app
  | none => .ok app

/-- Executable substring test on character lists (Rust `str::contains`):
true iff `needle` occurs contiguously inside `haystack`. -/
def charsContain (haystack needle : List Char) : Bool :=
  match haystack with
  | [] => needle.isEmpty
  | _ :: rest => needle.isPrefixOf haystack || charsContain rest needle

/-- Rust `String::contains(&str)` as a Boolean on Lean strings. -/
def strContains (s pat : String) : Bool :=
  charsContain s.toList pat.toList

/-- app.rs: `App::get_filtered_books` — case-insensitive substring filter of
`BOOK_ORDER` on short or full name (testament rendered as a display string). -/
def get_filtered_books (app : App) : List (String × String × String × Nat) :=
  let search_lower := app.selector_search.toLower
  (BOOK_ORDER.filter (fun e =>
      if app.selector_search.isEmpty then true
      else
        strContains e.2.1.toLower search_lower
          || strContains e.1.toLower search_lower)).map
    (fun e =>
      let testament_str := match e.2.2.1 with
        | .Old => "Old Testament"
        | .New => "New Testament"
      (e.1, e.2.1, testament_str, e.2.2.2))

/-- app.rs: `App::handle_selector_down`. -/
def handle_selector_down (app : App) : Except Unit App :=
  match app.selector_step with
  | .Book =>
    let filtered_books := get_filtered_books app
    if filtered_books.isEmpty then .ok app
    else .ok { app with
      selector_index := min (app.selector_index + 1) (filtered_books.length - 1) }
  | .Chapter =>
    match app.selector_selected_book with
    | some book =>
      if app.selector_index + 1 < get_chapter_count book then
        .ok { app with selector_index := app.selector_index + 1 }
      else .ok app
    | none => .ok app
  | .Verse =>
    match app.current_chapter with
    | some chapter =>
      if app.selector_index + 1 < chapter.verses.length then
        .ok { app with selector_index := app.selector_index + 1 }
      else .ok app
    | none => .ok app

/-- app.rs: `App::handle_selector_up`. -/
def handle_selector_up (app : App) : Except Unit App :=
  if app.selector_index > 0 then
    .ok { app with selector_index := app.selector_index - 1 }
  else .ok app

/-- app.rs: `App::handle_selector_back` (Escape inside the picker). -/
def handle_selector_back (app : App) : Except Unit App :=
  match app.selector_step with
  | .Book =>
    .ok { app with selector_open := false, selector_search := "" }
  | .Chapter =>
    .ok { app with selector_step := .Book, selector_index := 0,
                   selector_selected_book := none }
  | .Verse =>
    .ok { app with selector_step := .Chapter, selector_index := 0,
                   selector_selected_chapter := none }

/-- app.rs: `App::handle_selector_select` (Enter inside the picker). -/
def handle_selector_select (app : App) : Except Unit App :=
  match app.selector_step with
  | .Book =>
    let filtered_books := get_filtered_books app
    match filtered_books.get? app.selector_index with
    | some entry =>
      .ok { app with selector_selected_book := some entry.1,
                     selector_step := .Chapter,
                     selector_index := 0,
                     selector_search := "" }
    | none => .ok app
  | .Chapter =>
    let selected_chapter := app.selector_index + 1
    let app1 := { app with selector_selected_chapter := some selected_chapter }
    let app2 :=
      match app1.loader, app1.selector_selected_book with
      | some loader, some book =>
        match loader book selected_chapter with
        | .ok chapter => { app1 with current_chapter := some chapter }
        | .error _ => app1
      | _, _ => app1
    .ok { app2 with selector_step := .Verse, selector_index := 0 }
  | .Verse =>
    match app.selector_selected_book, app.selector_selected_chapter with
    | some book, some chapter =>
      let app1 := { app with
        state := { app.state with current_book := some book,
                                  current_chapter := some chapter },
        current_verse_index := app.selector_index }
      match load_current_chapter app1 with
      | .ok app2 =>
        let app3 := adjust_scroll_for_current_verse { app2 with scroll_offset := 0 }
        .ok { app3 with selector_open := false,
                        selector_search := "",
                        selector_selected_book := none,
                        selector_selected_chapter := none }
      | .error e => .error e
    | _, _ => .ok app

/-- app.rs: the `Action::ScrollDown` arm of `handle_action` in reader mode —
continuous advance with chapter/book rollover. -/
def scrollDownReader (app : App) : Except Unit App :=
  match app.current_chapter with
  | none => .ok app
  | some chapter =>
    if app.current_verse_index < chapter.verses.length - 1 then
      .ok (adjust_scroll_for_current_verse
        { app with current_verse_index := app.current_verse_index + 1 })
    else
      match app.state.current_chapter with
      | none => .ok app
      | some current_chapter_num =>
        let next_chapter_num := current_chapter_num + 1
        match app.loader, app.state.current_book with
        | some loader, some book =>
          match loader book next_chapter_num with
          | .ok next_chapter =>
            if next_chapter.verses.isEmpty then try_next_book app
            else
              .ok { app with
                state := { app.state with current_chapter := some next_chapter_num },
                current_chapter := some next_chapter,
                current_verse_index := 0,
                scroll_offset := 0 }
          | .error _ => try_next_book app
        | _, _ => .ok app

/-- app.rs: the `Action::ScrollUp` arm of `handle_action` in reader mode —
continuous retreat with chapter/book rollover. -/
def scrollUpReader (app : App) : Except Unit App :=
  if app.current_verse_index > 0 then
    .ok (adjust_scroll_for_current_verse
      { app with current_verse_index := app.current_verse_index - 1 })
  else
    match app.state.current_chapter with
    | none => .ok app
    | some current_chapter_num =>
      if current_chapter_num > 1 then
        let prev_chapter_num := current_chapter_num - 1
        match app.loader, app.state.current_book with
        | some loader, some book =>
          match loader book prev_chapter_num with
          | .ok prev_chapter =>
            let vi := prev_chapter.verses.length - 1
            .ok { app with
              state := { app.state with current_chapter := some prev_chapter_num },
              current_verse_index := vi,
              current_chapter := some prev_chapter,
              scroll_offset := vi - 20 }
          | .error _ => .ok app
        | _, _ => .ok app
      else try_previous_book app

/-- app.rs: the base (no modal open) match of `handle_action`, before the
final persistence sync of `state.current_verse_index`. -/
def handle_action_base (app : App) (action : Action) : Except Unit App :=
  match action with
  | .Quit => .ok { app with should_quit := true }
  | .OpenVerseSelector =>
    .ok { app with selector_open := true,
                   selector_step := .Book,
                   selector_search := "",
                   selector_index := 0,
                   selector_selected_book := none,
                   selector_selected_chapter := none }
  | .ScrollDown => scrollDownReader app
  | .ScrollUp => scrollUpReader app
  | .PageDown =>
    match app.current_chapter with
    | some chapter =>
      .ok { app with
        current_verse_index :=
          min (app.current_verse_index + 10) (chapter.verses.length - 1),
        scroll_offset := app.scroll_offset + 10 }
    | none => .ok app
  | .PageUp =>
    .ok { app with current_verse_index := app.current_verse_index - 10,
                   scroll_offset := app.scroll_offset - 10 }
  | .GoToTop =>
    .ok { app with current_verse_index := 0, scroll_offset := 0 }
  | .GoToBottom =>
    match app.current_chapter with
    | some chapter =>
      let vi := chapter.verses.length - 1
      .ok { app with current_verse_index := vi, scroll_offset := vi - 20 }
    | none => .ok app
  | .OpenSearch =>
    .ok { app with view_mode := .Search, vim_normal_mode := false }
  | .Escape =>
    if app.settings_open then .ok { app with settings_open := false }
    else if app.help_open then .ok { app with help_open := false }
    else .ok { app with view_mode := .Reader, vim_normal_mode := true }
  | .OpenBookmarks => .ok { app with view_mode := .Bookmarks }
  | .OpenSettings => .ok { app with settings_open := true }
  | .OpenHelp => .ok { app with help_open := true }
  | .ToggleBookmark =>
    match app.current_chapter with
    | some chapter =>
      match chapter.verses.get? app.current_verse_index with
      | some verse =>
        let new_bookmarks :=
          if app.bookmarks.contains verse.reference then
            app.bookmarks.filter (fun b => b != verse.reference)
          else
            app.bookmarks.filter (fun b => b != verse.reference)
              ++ [verse.reference]
        match app.bookmarks_save new_bookmarks with
        | .ok _ => .ok { app with bookmarks := new_bookmarks }
        | .error e => .error e
      | none => .ok app
    | none => .ok app
  | .Char c =>
    if app.view_mode = .Search then
      .ok { app with search_query := app.search_query.push c }
    else .ok app
  | .Backspace =>
    if app.view_mode = .Search then
      .ok { app with search_query := app.search_query.dropRight 1 }
    else .ok app
  | _ => .ok app

/-- app.rs line 464: the persistence sync at the end of `handle_action` —
`self.state.current_verse_index = self.current_verse_index`. -/
def sync_reading_position (app : App) : App :=
  { app with state := { app.state with
      current_verse_index := app.current_verse_index } }

/-- app.rs lines 167-199: the selector block of `handle_action` (runs when
`selector_open` and returns early). -/
def selectorIntercept (app : App) (action : Action) : Except Unit App :=
  match action with
  | .Escape => handle_selector_back app
  | .Enter => handle_selector_select app
  | .ScrollDown => handle_selector_down app
  | .ScrollUp => handle_selector_up app
  | .Char c =>
    if app.selector_step = .Book then
      .ok { app with selector_search := app.selector_search.push c,
                     selector_index := 0 }
    else if c.isDigit then
      .ok { app with selector_index := (c.toNat - 48) - 1 }
    else .ok app
  | .Backspace =>
    if app.selector_step = .Book then
      .ok { app with selector_search := app.selector_search.dropRight 1,
                     selector_index := 0 }
    else .ok app
  | _ => .ok app

/-- app.rs lines 203-243: the theme-picker block of `handle_action`. -/
def themePickerIntercept (app : App) (action : Action) : Except Unit App :=
  match action with
  | .ScrollUp =>
    let themes := available_themes
    if app.theme_picker_index > 0 then
      let i := app.theme_picker_index - 1
      .ok { app with theme_picker_index := i,
                     theme := get_theme (themes.getD i "") }
    else .ok app
  | .ScrollDown =>
    let themes := available_themes
    if app.theme_picker_index < themes.length - 1 then
      let i := app.theme_picker_index + 1
      .ok { app with theme_picker_index := i,
                     theme := get_theme (themes.getD i "") }
    else .ok app
  | .Enter =>
    let themes := available_themes
    let new_settings := { app.settings with
      theme := themes.getD app.theme_picker_index "" }
    match app.settings_save new_settings with
    | .ok _ =>
      .ok { app with settings := new_settings, theme_picker_open := false }
    | .error e => .error e
  | .Escape =>
    .ok { app with theme := get_theme app.settings.theme,
                   theme_picker_open := false }
  | .Quit => .ok { app with should_quit := true }
  | _ => .ok app

/-- app.rs lines 265-287: the Enter/NextVerse arm of the settings block —
activate or toggle the selected setting. -/
def settingsActivate (app : App) : Except Unit App :=
  match app.settings_selected_index with
  | 0 =>
    let themes := available_themes
    let idx := match themes.findIdx? (fun t => t == app.settings.theme) with
      | some i => i
      | none => 0
    .ok { app with theme_picker_index := idx, theme_picker_open := true }
  | 1 =>
    let new_settings := { app.settings with
      show_verse_numbers := !app.settings.show_verse_numbers }
    match app.settings_save new_settings with
    | .ok _ => .ok { app with settings := new_settings }
    | .error e => .error e
  | 2 =>
    let new_settings := { app.settings with
      verse_spacing := !app.settings.verse_spacing }
    match app.settings_save new_settings with
    | .ok _ => .ok { app with settings := new_settings }
    | .error e => .error e
  | _ => .ok app

/-- app.rs lines 246-299: the settings block of `handle_action`. -/
def settingsIntercept (app : App) (action : Action) : Except Unit App :=
  match action with
  | .Escape => .ok { app with settings_open := false }
  | .ScrollUp =>
    if app.settings_selected_index > 0 then
      .ok { app with settings_selected_index := app.settings_selected_index - 1 }
    else .ok app
  | .ScrollDown =>
    if app.settings_selected_index < 2 then
      .ok { app with settings_selected_index := app.settings_selected_index + 1 }
    else .ok app
  | .Enter => settingsActivate app
  | .NextVerse => settingsActivate app
  | .PreviousVerse => .ok app
  | .Quit => .ok { app with should_quit := true }
  | _ => .ok app

/-- app.rs lines 302-315: the help block of `handle_action`. -/
def helpIntercept (app : App) (action : Action) : Except Unit App :=
  match action with
  | .Escape => .ok { app with help_open := false }
  | .Quit => .ok { app with should_quit := true }
  | _ => .ok app

/-- app.rs: `App::handle_action` — modal dispatch (selector, then theme
picker, then settings, then help, then the base reader match).  The base
path ends with the persistence sync `state.current_verse_index :=
current_verse_index`; the modal paths return early and skip it. -/
def handle_action (app : App) (action : Action) : Except Unit App :=
  if app.selector_open then
    selectorIntercept app action
  else if app.theme_picker_open then
    themePickerIntercept app action
  else if app.settings_open then
    settingsIntercept app action
  else if app.help_open then
    helpIntercept app action
  else
    match handle_action_base app action with
    | .ok app1 => .ok (sync_reading_position app1)
    | .error e => .error e

/-- Processing a sequence of input intents one after the other (main.rs
feeds `handle_action` one intent at a time and stops on an error). -/
def processActions : App → List Action → Except Unit App
  | app, [] => .ok app
  | app, a :: rest =>
    match handle_action app a with
    | .ok app1 => processActions app1 rest
    | .error e => .error e

/-! Concrete fixtures used to evaluate the embedded code on explicit
inputs (a synthetic chapter generator, a total and a failing Document
Provider, and a baseline application state). -/

/-- A synthetic chapter of `n` verses for book `b`, chapter `c`. -/
def mkChapter (b : String) (c : Nat) (n : Nat) : Chapter :=
  { book := b, chapter_number := c,
    verses := (List.range n).map (fun i =>
      { reference := { book := b, chapter := c, verse := i + 1 }, text := "w" }) }

/-- A Document Provider that always succeeds with a 21-verse chapter. -/
def okLoader : Loader := fun b c => .ok (mkChapter b c 21)

/-- A Document Provider that always fails (e.g. storage `NotFound`). -/
def failLoader : Loader := fun _ _ => .error ()

/-- A persistence collaborator that always succeeds. -/
def okSave {α : Type} : Save α := fun _ => .ok ()

/-- A baseline application state: reading John 1, verse 0, no modal open. -/
def baseApp : App :=
  { settings := { theme := "default", show_verse_numbers := true,
                  verse_spacing := false },
    bookmarks := [],
    state := { current_verse := none, current_book := some "John",
               current_chapter := some 1, current_verse_index := 0 },
    theme := .dark,
    loader := some okLoader,
    settings_save := okSave,
    bookmarks_save := okSave,
    current_chapter := some (mkChapter "John" 1 21),
    view_mode := .Reader,
    search_query := "",
    search_results := [],
    search_selected := 0,
    current_verse_index := 0,
    scroll_offset := 0,
    bookmark_selected := 0,
    vim_normal_mode := true,
    selector_open := false,
    selector_step := .Book,
    selector_search := "",
    selector_index := 0,
    selector_selected_book := none,
    selector_selected_chapter := none,
    settings_open := false,
    help_open := false,
    settings_selected_index := 0,
    theme_picker_open := false,
    theme_picker_index := 0,
    should_quit := false }

/-- Picker open at the Verse step with book "John" and chapter 3 chosen,
verse index 15 selected; the persisted position is John 1 verse 0. -/
def c1app : App := { baseApp with
  selector_open := true,
  selector_step := .Verse,
  selector_selected_book := some "John",
  selector_selected_chapter := some 3,
  selector_index := 15 }

/-- Reading the single-verse last chapter of Genesis with a failing
Document Provider. -/
def c2app : App := { baseApp with
  state := { baseApp.state with
               current_book := some "Gen",
               current_chapter := some 50 },
  current_chapter := some (mkChapter "Gen" 50 1),
  loader := some failLoader }

/-- At verse 0 of Genesis chapter 2 with a failing Document Provider. -/
def c3app : App := { baseApp with
  state := { baseApp.state with
               current_book := some "Gen",
               current_chapter := some 2 },
  current_chapter := some (mkChapter "Gen" 2 5),
  loader := some failLoader }

/-- Picker open at the Chapter step for Obadiah (a one-chapter book). -/
def c4app : App := { baseApp with
  selector_open := true,
  selector_step := .Chapter,
  selector_selected_book := some "Obad" }

/-- Picker open at the Book step with an empty filter. -/
def c4bapp : App := { baseApp with selector_open := true }

/-- A Document Provider that always succeeds, but with an empty chapter. -/
def emptyLoader : Loader := fun b c => .ok { book := b, chapter_number := c, verses := [] }

/-- At verse 0 of Genesis chapter 2 with a provider whose chapters are
all empty. -/
def c3eapp : App := { c3app with loader := some emptyLoader }

/-- Reading the last verse of Revelation 22 (the last chapter of the last
book) with a failing Document Provider. -/
def c6app : App := { baseApp with
  state := { baseApp.state with
               current_book := some "Rev",
               current_chapter := some 22 },
  current_chapter := some (mkChapter "Rev" 22 21),
  loader := some failLoader,
  current_verse_index := 20 }

/-- Reading verse 0 of Genesis chapter 1 (the very start of the document). -/
def c6bapp : App := { baseApp with
  state := { baseApp.state with
               current_book := some "Gen",
               current_chapter := some 1 },
  current_chapter := some (mkChapter "Gen" 1 31) }

/-- Theme picker open over saved theme "Nord", previewing index 0. -/
def c9app : App := { baseApp with
  settings := { baseApp.settings with theme := "Nord" },
  theme := .nord,
  theme_picker_open := true,
  theme_picker_index := 2 }

/-- A Document Provider that never fails (one hypothesis under which the
amended C2 shows `handle_action` never returns an error). -/
def LoaderTotal (lo : Option Loader) : Prop :=
  ∀ l, lo = some l → ∀ b c, (l b c).isOk = true

/-- A persistence collaborator that never fails (the other hypothesis of
the amended C2). -/
def SaveTotal {α : Type} (f : Save α) : Prop :=
  ∀ x, (f x).isOk = true

/-! Small frame lemmas: the viewport-follow pass and the persistence sync
touch only the fields they are defined to touch. -/

theorem adjust_scroll_fields (app : App) :
    adjust_scroll_for_current_verse app =
      { app with scroll_offset := (adjust_scroll_for_current_verse app).scroll_offset } := by
  unfold adjust_scroll_for_current_verse
  split
  · rfl
  · split <;> rfl

theorem adjust_scroll_current_verse_index (app : App) :
    (adjust_scroll_for_current_verse app).current_verse_index =
      app.current_verse_index := by
  rw [adjust_scroll_fields]

theorem adjust_scroll_selector_open (app : App) :
    (adjust_scroll_for_current_verse app).selector_open = app.selector_open := by
  rw [adjust_scroll_fields]

theorem adjust_scroll_theme_picker_open (app : App) :
    (adjust_scroll_for_current_verse app).theme_picker_open =
      app.theme_picker_open := by
  rw [adjust_scroll_fields]

theorem adjust_scroll_settings_open (app : App) :
    (adjust_scroll_for_current_verse app).settings_open = app.settings_open := by
  rw [adjust_scroll_fields]

theorem adjust_scroll_help_open (app : App) :
    (adjust_scroll_for_current_verse app).help_open = app.help_open := by
  rw [adjust_scroll_fields]

theorem adjust_scroll_state (app : App) :
    (adjust_scroll_for_current_verse app).state = app.state := by
  rw [adjust_scroll_fields]

theorem adjust_scroll_current_chapter (app : App) :
    (adjust_scroll_for_current_verse app).current_chapter =
      app.current_chapter := by
  rw [adjust_scroll_fields]

theorem adjust_scroll_offset_eq (app : App) :
    (adjust_scroll_for_current_verse app).scroll_offset =
      if app.current_verse_index < app.scroll_offset then
        app.current_verse_index
      else if app.scroll_offset + 30 ≤ app.current_verse_index then
        app.current_verse_index - 29
      else
        app.scroll_offset := by
  unfold adjust_scroll_for_current_verse VIEWPORT_HEIGHT
  split_ifs <;> rfl

/-- C1: confirming at the Verse step with chosen book "John", chosen
chapter 3 and selection index 15 commits the book and chapter and closes
the picker, but the committed verse index is 0 — `load_current_chapter`
overwrites `current_verse_index` with the stale persisted
`state.current_verse_index` (0) after `handle_selector_select` set it to
the selected index 15, so the final Location is John 3 verse 0, not
John 3 verse 15 as the claim (and the code's own comment "Jump to the
selected verse") requires. -/
theorem claim_C1_verse_confirm_restores_stale_index :
    (handle_action c1app Action.Enter).toOption.map (fun a =>
        (a.state.current_book, a.state.current_chapter, a.current_verse_index,
         a.selector_open, a.selector_selected_book, a.selector_selected_chapter))
      = some (some "John", some 3, 0, false, none, none)
    ∧ c1app.selector_index = 15
    ∧ c1app.state.current_verse_index = 0 := by
  refine ⟨?_, rfl, rfl⟩
  rfl

/-- C2 counterexample: with a failing Document Provider, advancing at the
last verse of the last chapter of Genesis rolls over to the next book
(Exodus), whose chapter load fails, and `handle_action` returns an error
— refuting "processing the intent never produces an error result". -/
theorem claim_C2_counterexample :
    handle_action c2app Action.ScrollDown = Except.error () := by
  rfl

/-- C3 counterexample: retreating at verse 0 of chapter 2 when the
previous chapter fails to load leaves the state completely unchanged —
navigation does NOT "skip back one more level" on retreat, refuting the
claim that failure is handled by skipping a further level on retreat. -/
theorem claim_C3_counterexample :
    handle_action c3app Action.ScrollUp = Except.ok c3app
    ∧ failLoader "Gen" 1 = Except.error ()
    ∧ c3app.current_verse_index = 0
    ∧ c3app.state.current_chapter = some 2 := by
  exact ⟨rfl, rfl, rfl, rfl⟩

/-- C4 counterexample: Obadiah has exactly 1 chapter, so digit 9 at the
Chapter step should clamp the selection index to 0 per the claim; the
code instead sets it to 8 unclamped.  At the Book step a digit is not a
jump at all: it is appended to the text filter and the index resets to 0
(digit 3 should have produced index 2 over the 66-book list). -/
theorem claim_C4_counterexample :
    handle_action c4app (Action.Char '9')
        = Except.ok { c4app with selector_index := 8 }
    ∧ get_chapter_count "Obad" = 1
    ∧ handle_action c4bapp (Action.Char '3')
        = Except.ok { c4bapp with selector_search := "3", selector_index := 0 } := by
  exact ⟨rfl, rfl, rfl⟩

/-- C4 amended: while the picker is open, a digit character at the
Chapter or Verse step sets `selector_index` to `digit - 1` with no
clamping against the candidate count; at the Book step any character —
digits included — is appended to the text filter and the selection index
resets to 0. -/
theorem claim_C4_amended (app : App) (c : Char)
    (hsel : app.selector_open = true) :
    ((app.selector_step = SelectorStep.Chapter ∨
        app.selector_step = SelectorStep.Verse) →
      c.isDigit = true →
      handle_action app (Action.Char c)
        = Except.ok { app with selector_index := c.toNat - 48 - 1 })
    ∧ (app.selector_step = SelectorStep.Book →
      handle_action app (Action.Char c)
        = Except.ok { app with
            selector_search := app.selector_search.push c,
            selector_index := 0 }) := by
  have hdispatch : handle_action app (Action.Char c)
      = selectorIntercept app (Action.Char c) := by
    unfold handle_action
    rw [if_pos hsel]
  constructor
  · intro hstep hc
    have hnb : ¬ app.selector_step = SelectorStep.Book := by
      rcases hstep with h | h <;> simp [h]
    rw [hdispatch]
    show (if app.selector_step = SelectorStep.Book then _
          else if c.isDigit then _ else _) = _
    rw [if_neg hnb, if_pos hc]
  · intro hstep
    rw [hdispatch]
    show (if app.selector_step = SelectorStep.Book then _
          else if c.isDigit then _ else _) = _
    rw [if_pos hstep]

/-- C4 amended, witness: digit 7 at the Chapter step of the concrete
picker state jumps straight to index 6. -/
theorem claim_C4_amended_witness :
    handle_action c4app (Action.Char '7')
      = Except.ok { c4app with selector_index := 6 } :=
  (claim_C4_amended c4app '7' rfl).1 (Or.inl rfl) rfl

/-- C7: the viewport-follow pass with the implementation's fixed height
H = 30: an index above the window becomes the new offset, an index at or
past the bottom row puts itself on the last visible row
(offset = index - 29), and an index already inside the window leaves the
offset unchanged. -/
theorem claim_C7_viewport_follow (app : App) :
    (app.current_verse_index < app.scroll_offset →
      (adjust_scroll_for_current_verse app).scroll_offset
        = app.current_verse_index)
    ∧ (app.current_verse_index ≥ app.scroll_offset + 30 →
      (adjust_scroll_for_current_verse app).scroll_offset
        = app.current_verse_index - 29)
    ∧ (¬ app.current_verse_index < app.scroll_offset →
       app.current_verse_index < app.scroll_offset + 30 →
      (adjust_scroll_for_current_verse app).scroll_offset
        = app.scroll_offset) := by
  refine ⟨?_, ?_, ?_⟩ <;> rw [adjust_scroll_offset_eq] <;> intros <;>
    split_ifs <;> omega

/-- C7 witness: with the current verse at index 45 and the offset at 2,
the pass scrolls so that verse 45 is the last visible row: offset 16. -/
theorem claim_C7_viewport_follow_witness :
    (adjust_scroll_for_current_verse
      { baseApp with current_verse_index := 45, scroll_offset := 2 }).scroll_offset
      = 16 :=
  (claim_C7_viewport_follow _).2.1 (by decide)

/-- C8: viewport-follow is idempotent — running the adjustment pass a
second time with no index change in between never moves the offset
again. -/
theorem claim_C8_viewport_follow_idempotent (app : App) :
    adjust_scroll_for_current_verse (adjust_scroll_for_current_verse app)
      = adjust_scroll_for_current_verse app := by
  have hoff : (adjust_scroll_for_current_verse
        (adjust_scroll_for_current_verse app)).scroll_offset
      = (adjust_scroll_for_current_verse app).scroll_offset := by
    rw [adjust_scroll_offset_eq (adjust_scroll_for_current_verse app),
      adjust_scroll_current_verse_index, adjust_scroll_offset_eq app]
    split_ifs <;> omega
  rw [adjust_scroll_fields (adjust_scroll_for_current_verse app), hoff]

/-- C10: while the Location Picker is open, the quit intent is silently
discarded — the state is returned unchanged (so `should_quit` stays
false if it was false) — whereas with the picker closed the same intent
sets `should_quit` when the theme picker, the settings panel or the help
surface is open. -/
theorem claim_C10_quit_dispatch (app : App) :
    (app.selector_open = true →
      handle_action app Action.Quit = Except.ok app)
    ∧ (app.selector_open = false → app.theme_picker_open = true →
      handle_action app Action.Quit
        = Except.ok { app with should_quit := true })
    ∧ (app.selector_open = false → app.theme_picker_open = false →
       app.settings_open = true →
      handle_action app Action.Quit
        = Except.ok { app with should_quit := true })
    ∧ (app.selector_open = false → app.theme_picker_open = false →
       app.settings_open = false → app.help_open = true →
      handle_action app Action.Quit
        = Except.ok { app with should_quit := true }) := by
  refine ⟨?_, ?_, ?_, ?_⟩
  · intro h1
    unfold handle_action
    rw [if_pos h1]
    rfl
  · intro h1 h2
    unfold handle_action
    rw [if_neg (by simp [h1]), if_pos h2]
    rfl
  · intro h1 h2 h3
    unfold handle_action
    rw [if_neg (by simp [h1]), if_neg (by simp [h2]), if_pos h3]
    rfl
  · intro h1 h2 h3 h4
    unfold handle_action
    rw [if_neg (by simp [h1]), if_neg (by simp [h2]), if_neg (by simp [h3]),
      if_pos h4]
    rfl

/-- C10 witness: quit inside the open picker leaves the concrete state
untouched. -/
theorem claim_C10_quit_dispatch_witness :
    handle_action c4bapp Action.Quit = Except.ok c4bapp :=
  (claim_C10_quit_dispatch c4bapp).1 rfl

/-! Success propagation: with a never-failing Document Provider no part
of intent processing can produce an error result. -/

theorem load_current_chapter_isOk (app : App) (h : LoaderTotal app.loader) :
    (load_current_chapter app).isOk = true := by
  unfold load_current_chapter
  split
  · rename_i l book chapter hl hb hc
    split
    · rfl
    · rename_i e heq
      have h2 := h l hl book chapter
      rw [heq] at h2
      simp [Except.isOk, Except.toBool] at h2
  · rfl

theorem save_error_elim {C : Prop} {α : Type} {f : Save α} {x : α} {e : Unit}
    (heq : f x = Except.error e) (h : SaveTotal f) : C := by
  exfalso
  have h2 := h x
  rw [heq] at h2
  simp [Except.isOk, Except.toBool] at h2

theorem load_current_chapter_error_elim {C : Prop} {app : App} {e : Unit}
    (heq : load_current_chapter app = Except.error e)
    (h : LoaderTotal app.loader) : C := by
  exfalso
  revert heq
  unfold load_current_chapter
  split
  · rename_i l book chapter hl hb hc
    split
    · simp
    · rename_i e2 heq2
      intro _
      have h2 := h l hl book chapter
      rw [heq2] at h2
      simp [Except.isOk, Except.toBool] at h2
  · simp

theorem try_next_book_isOk (app : App) (h : LoaderTotal app.loader) :
    (try_next_book app).isOk = true := by
  unfold try_next_book
  split
  · split
    · split
      · dsimp only
        split
        · rfl
        · rename_i e heq
          exact load_current_chapter_error_elim heq h
      · rfl
    · rfl
  · rfl

theorem try_previous_book_isOk (app : App) (h : LoaderTotal app.loader) :
    (try_previous_book app).isOk = true := by
  unfold try_previous_book
  split
  · split
    · split
      · dsimp only
        split
        · split <;> rfl
        · rename_i e heq
          exact load_current_chapter_error_elim heq h
      · rfl
    · rfl
  · rfl

theorem scrollDownReader_isOk (app : App) (h : LoaderTotal app.loader) :
    (scrollDownReader app).isOk = true := by
  unfold scrollDownReader
  split
  · rfl
  · split
    · rfl
    · split
      · rfl
      · split
        · dsimp only
          split
          · split
            · exact try_next_book_isOk app h
            · rfl
          · exact try_next_book_isOk app h
        · rfl

theorem scrollUpReader_isOk (app : App) (h : LoaderTotal app.loader) :
    (scrollUpReader app).isOk = true := by
  unfold scrollUpReader
  split
  · rfl
  · split
    · rfl
    · split
      · split
        · dsimp only
          split <;> rfl
        · rfl
      · exact try_previous_book_isOk app h

theorem handle_selector_select_isOk (app : App) (h : LoaderTotal app.loader) :
    (handle_selector_select app).isOk = true := by
  unfold handle_selector_select
  split
  · dsimp only
    split <;> rfl
  · rfl
  · split
    · dsimp only
      split
      · rfl
      · rename_i e heq
        exact load_current_chapter_error_elim heq h
    · rfl

theorem selectorIntercept_isOk (app : App) (a : Action)
    (h : LoaderTotal app.loader) :
    (selectorIntercept app a).isOk = true := by
  cases a
  case Enter => exact handle_selector_select_isOk app h
  case Escape =>
    unfold selectorIntercept handle_selector_back
    dsimp only
    split <;> rfl
  case ScrollDown =>
    unfold selectorIntercept handle_selector_down
    dsimp only
    split <;> (try split) <;> (try split) <;> rfl
  case ScrollUp =>
    unfold selectorIntercept handle_selector_up
    dsimp only
    split <;> rfl
  case Char c =>
    unfold selectorIntercept
    dsimp only
    split <;> (try split) <;> rfl
  case Backspace =>
    unfold selectorIntercept
    dsimp only
    split <;> rfl
  all_goals rfl

theorem themePickerIntercept_isOk (app : App) (a : Action)
    (hs : SaveTotal app.settings_save) :
    (themePickerIntercept app a).isOk = true := by
  cases a
  case ScrollUp => unfold themePickerIntercept; dsimp only; split <;> rfl
  case ScrollDown => unfold themePickerIntercept; dsimp only; split <;> rfl
  case Enter =>
    unfold themePickerIntercept
    dsimp only
    split
    · rfl
    · rename_i e heq
      exact save_error_elim heq hs
  all_goals rfl

theorem settingsActivate_isOk (app : App)
    (hs : SaveTotal app.settings_save) :
    (settingsActivate app).isOk = true := by
  unfold settingsActivate
  dsimp only
  split
  · rfl
  · split
    · rfl
    · rename_i e heq
      exact save_error_elim heq hs
  · split
    · rfl
    · rename_i e heq
      exact save_error_elim heq hs
  · rfl

theorem settingsIntercept_isOk (app : App) (a : Action)
    (hs : SaveTotal app.settings_save) :
    (settingsIntercept app a).isOk = true := by
  cases a
  case ScrollUp => unfold settingsIntercept; dsimp only; split <;> rfl
  case ScrollDown => unfold settingsIntercept; dsimp only; split <;> rfl
  case Enter => exact settingsActivate_isOk app hs
  case NextVerse => exact settingsActivate_isOk app hs
  all_goals rfl

theorem helpIntercept_isOk (app : App) (a : Action) :
    (helpIntercept app a).isOk = true := by
  cases a <;> rfl

theorem handle_action_base_isOk (app : App) (a : Action)
    (h : LoaderTotal app.loader)
    (hb : SaveTotal app.bookmarks_save) :
    (handle_action_base app a).isOk = true := by
  cases a
  case ScrollDown => exact scrollDownReader_isOk app h
  case ScrollUp => exact scrollUpReader_isOk app h
  case PageDown => unfold handle_action_base; dsimp only; split <;> rfl
  case GoToBottom => unfold handle_action_base; dsimp only; split <;> rfl
  case ToggleBookmark =>
    unfold handle_action_base
    dsimp only
    split
    · split
      · split
        · rfl
        · rename_i e heq
          exact save_error_elim heq hb
      · rfl
    · rfl
  case Escape =>
    unfold handle_action_base
    dsimp only
    split <;> (try split) <;> rfl
  case Char c => unfold handle_action_base; dsimp only; split <;> rfl
  case Backspace => unfold handle_action_base; dsimp only; split <;> rfl
  all_goals rfl

/-- C2 amended: a Document Provider failure loading the next or previous
chapter of the *same* book is recovered (navigation falls through to the
book level), but `handle_action` can return an error result: a failure
inside `load_current_chapter` — loading the newly selected book's
chapter during book rollover, or the confirmed location at the picker's
Verse step — propagates out with `?`, as does a persistence-save failure
in the theme-picker Enter arm, the settings toggles, and ToggleBookmark;
`handle_action` never returns an error whenever the Document Provider
and the persistence collaborators never fail. -/
theorem claim_C2_amended (app : App) (a : Action)
    (h : LoaderTotal app.loader)
    (hs : SaveTotal app.settings_save)
    (hb : SaveTotal app.bookmarks_save) :
    (handle_action app a).isOk = true := by
  unfold handle_action
  split_ifs
  · exact selectorIntercept_isOk app a h
  · exact themePickerIntercept_isOk app a hs
  · exact settingsIntercept_isOk app a hs
  · exact helpIntercept_isOk app a
  · split
    · rfl
    · rename_i e heq
      have h2 := handle_action_base_isOk app a h hb
      rw [heq] at h2
      simp [Except.isOk, Except.toBool] at h2

/-- C2 amended, witness: with the always-succeeding provider and
persistence of the baseline state, advancing produces no error. -/
theorem claim_C2_amended_witness :
    (handle_action baseApp Action.ScrollDown).isOk = true :=
  claim_C2_amended baseApp Action.ScrollDown
    (by
      intro l hl b c
      injection hl with h
      subst h
      rfl)
    (fun s => rfl)
    (fun bs => rfl)

/-! Frame facts about the persistence sync. -/

@[simp] theorem sync_current_verse_index (app : App) :
    (sync_reading_position app).current_verse_index = app.current_verse_index := rfl

@[simp] theorem sync_selector_open (app : App) :
    (sync_reading_position app).selector_open = app.selector_open := rfl

@[simp] theorem sync_theme_picker_open (app : App) :
    (sync_reading_position app).theme_picker_open = app.theme_picker_open := rfl

@[simp] theorem sync_settings_open (app : App) :
    (sync_reading_position app).settings_open = app.settings_open := rfl

@[simp] theorem sync_help_open (app : App) :
    (sync_reading_position app).help_open = app.help_open := rfl

@[simp] theorem sync_current_chapter (app : App) :
    (sync_reading_position app).current_chapter = app.current_chapter := rfl

@[simp] theorem sync_state_current_book (app : App) :
    (sync_reading_position app).state.current_book = app.state.current_book := rfl

@[simp] theorem sync_state_current_chapter (app : App) :
    (sync_reading_position app).state.current_chapter
      = app.state.current_chapter := rfl

attribute [simp] adjust_scroll_current_verse_index adjust_scroll_selector_open
  adjust_scroll_theme_picker_open adjust_scroll_settings_open
  adjust_scroll_help_open adjust_scroll_state adjust_scroll_current_chapter

/-- With all modals closed, `handle_action` runs the base match and the
persistence sync. -/
theorem handle_action_closed (app : App) (a : Action)
    (hsel : app.selector_open = false) (htp : app.theme_picker_open = false)
    (hset : app.settings_open = false) (hhelp : app.help_open = false) :
    handle_action app a =
      match handle_action_base app a with
      | .ok app1 => .ok (sync_reading_position app1)
      | .error e => .error e := by
  unfold handle_action
  rw [if_neg (by simp [hsel]), if_neg (by simp [htp]), if_neg (by simp [hset]),
    if_neg (by simp [hhelp])]

/-- C3 amended: on advance, a Document Provider failure and an empty next
chapter are treated identically (both fall through to `try_next_book`);
on retreat at verse 0 with current chapter `c > 1`, a failure loading the
previous chapter leaves the position unchanged, and an empty previous
chapter is committed wholesale with `current_verse_index = 0` — retreat
does not skip a further level in either case. -/
theorem claim_C3_amended (app : App) (l : Loader) (b : String) (c : Nat)
    (hsel : app.selector_open = false) (htp : app.theme_picker_open = false)
    (hset : app.settings_open = false) (hhelp : app.help_open = false)
    (hl : app.loader = some l) (hb : app.state.current_book = some b)
    (hc : app.state.current_chapter = some c) :
    (∀ ch, app.current_chapter = some ch →
      ¬ app.current_verse_index < ch.verses.length - 1 →
      (l b (c + 1) = Except.error () →
        scrollDownReader app = try_next_book app)
      ∧ (∀ ech, l b (c + 1) = Except.ok ech → ech.verses = [] →
        scrollDownReader app = try_next_book app))
    ∧ (app.current_verse_index = 0 → 1 < c → l b (c - 1) = Except.error () →
      handle_action app Action.ScrollUp
        = Except.ok (sync_reading_position app))
    ∧ (∀ pch, app.current_verse_index = 0 → 1 < c →
      l b (c - 1) = Except.ok pch → pch.verses = [] →
      handle_action app Action.ScrollUp
        = Except.ok (sync_reading_position { app with
            state := { app.state with current_chapter := some (c - 1) },
            current_verse_index := 0,
            current_chapter := some pch,
            scroll_offset := 0 })) := by
  refine ⟨?_, ?_, ?_⟩
  · intro ch hcc hvi
    constructor
    · intro herr
      unfold scrollDownReader
      rw [hcc]
      dsimp only
      rw [if_neg hvi, hc]
      dsimp only
      rw [hl, hb]
      dsimp only
      rw [herr]
    · intro ech hok hempty
      unfold scrollDownReader
      rw [hcc]
      dsimp only
      rw [if_neg hvi, hc]
      dsimp only
      rw [hl, hb]
      dsimp only
      rw [hok]
      dsimp only
      rw [if_pos (by simp [hempty])]
  · intro hvi0 hcgt herr
    rw [handle_action_closed app Action.ScrollUp hsel htp hset hhelp]
    have hup : scrollUpReader app = Except.ok app := by
      unfold scrollUpReader
      rw [if_neg (by omega), hc]
      dsimp only
      rw [if_pos hcgt]
      rw [hl, hb]
      dsimp only
      rw [herr]
    have hbase : handle_action_base app Action.ScrollUp = scrollUpReader app := rfl
    rw [hbase, hup]
  · intro pch hvi0 hcgt hok hempty
    rw [handle_action_closed app Action.ScrollUp hsel htp hset hhelp]
    have hup : scrollUpReader app = Except.ok { app with
        state := { app.state with current_chapter := some (c - 1) },
        current_verse_index := 0,
        current_chapter := some pch,
        scroll_offset := 0 } := by
      unfold scrollUpReader
      rw [if_neg (by omega), hc]
      dsimp only
      rw [if_pos hcgt]
      rw [hl, hb]
      dsimp only
      rw [hok]
      dsimp only
      rw [hempty]
      rfl
    have hbase : handle_action_base app Action.ScrollUp = scrollUpReader app := rfl
    rw [hbase, hup]

/-- C3 amended, witness: at verse 0 of Genesis 2 with a failing provider,
retreat returns the state unchanged (up to the persistence sync, which
re-writes the same index). -/
theorem claim_C3_amended_witness :
    handle_action c3app Action.ScrollUp
      = Except.ok (sync_reading_position c3app) :=
  (claim_C3_amended c3app failLoader "Gen" 2 rfl rfl rfl rfl rfl rfl rfl).2.1
    rfl (by decide) rfl

/-- C5: anywhere strictly inside a loaded chapter (not at its last verse),
advancing one verse and then retreating one verse returns the Location —
book, chapter and verse index — to exactly where it started. -/
theorem claim_C5_advance_retreat_roundtrip (app : App) (ch : Chapter)
    (hsel : app.selector_open = false) (htp : app.theme_picker_open = false)
    (hset : app.settings_open = false) (hhelp : app.help_open = false)
    (hcc : app.current_chapter = some ch)
    (hvi : app.current_verse_index < ch.verses.length - 1) :
    ∃ app1 app2,
      handle_action app Action.ScrollDown = Except.ok app1 ∧
      handle_action app1 Action.ScrollUp = Except.ok app2 ∧
      app2.state.current_book = app.state.current_book ∧
      app2.state.current_chapter = app.state.current_chapter ∧
      app2.current_verse_index = app.current_verse_index := by
  have hsd : scrollDownReader app = Except.ok (adjust_scroll_for_current_verse
      { app with current_verse_index := app.current_verse_index + 1 }) := by
    unfold scrollDownReader
    rw [hcc]
    dsimp only
    rw [if_pos hvi]
  have h1 : handle_action app Action.ScrollDown
      = Except.ok (sync_reading_position (adjust_scroll_for_current_verse
          { app with current_verse_index := app.current_verse_index + 1 })) := by
    rw [handle_action_closed app Action.ScrollDown hsel htp hset hhelp]
    have hbase : handle_action_base app Action.ScrollDown
        = scrollDownReader app := rfl
    rw [hbase, hsd]
  set app1 := sync_reading_position (adjust_scroll_for_current_verse
    { app with current_verse_index := app.current_verse_index + 1 }) with happ1
  have hsel1 : app1.selector_open = false := by simp [happ1, hsel]
  have htp1 : app1.theme_picker_open = false := by simp [happ1, htp]
  have hset1 : app1.settings_open = false := by simp [happ1, hset]
  have hhelp1 : app1.help_open = false := by simp [happ1, hhelp]
  have hcvi1 : app1.current_verse_index = app.current_verse_index + 1 := by
    simp [happ1]
  have hsu : scrollUpReader app1 = Except.ok (adjust_scroll_for_current_verse
      { app1 with current_verse_index := app1.current_verse_index - 1 }) := by
    unfold scrollUpReader
    rw [if_pos (by rw [hcvi1]; omega)]
  have h2 : handle_action app1 Action.ScrollUp
      = Except.ok (sync_reading_position (adjust_scroll_for_current_verse
          { app1 with current_verse_index := app1.current_verse_index - 1 })) := by
    rw [handle_action_closed app1 Action.ScrollUp hsel1 htp1 hset1 hhelp1]
    have hbase : handle_action_base app1 Action.ScrollUp
        = scrollUpReader app1 := rfl
    rw [hbase, hsu]
  refine ⟨app1, _, h1, h2, ?_, ?_, ?_⟩
  · simp [happ1]
  · simp [happ1]
  · simp [happ1]

/-- C5 witness: from John 1 verse 0 (chapter of 21 verses), advance then
retreat lands back on verse 0 of John 1. -/
theorem claim_C5_advance_retreat_roundtrip_witness :
    ∃ app1 app2,
      handle_action baseApp Action.ScrollDown = Except.ok app1 ∧
      handle_action app1 Action.ScrollUp = Except.ok app2 ∧
      app2.state.current_book = baseApp.state.current_book ∧
      app2.state.current_chapter = baseApp.state.current_chapter ∧
      app2.current_verse_index = baseApp.current_verse_index :=
  claim_C5_advance_retreat_roundtrip baseApp (mkChapter "John" 1 21)
    rfl rfl rfl rfl rfl (by decide)

theorem findIdx_Rev :
    BOOK_ORDER.findIdx? (fun e => e.1 == "Rev") = some 65 := by rfl

theorem findIdx_Gen :
    BOOK_ORDER.findIdx? (fun e => e.1 == "Gen") = some 0 := by rfl

/-- C6: advancing at the last verse of the last chapter of the last book
("Rev" 22, with the provider failing for the out-of-range chapter 23) is
a no-op on the Location, and retreating at verse 0 of chapter 1 of the
first book ("Gen") is a no-op on the Location; the only write is the
persistence sync, which re-records the unchanged verse index. -/
theorem claim_C6_document_boundary_noop (app : App) (l : Loader)
    (hsel : app.selector_open = false) (htp : app.theme_picker_open = false)
    (hset : app.settings_open = false) (hhelp : app.help_open = false)
    (hl : app.loader = some l) :
    (∀ ch, app.state.current_book = some "Rev" →
      app.state.current_chapter = some 22 →
      l "Rev" 23 = Except.error () →
      app.current_chapter = some ch →
      ¬ app.current_verse_index < ch.verses.length - 1 →
      handle_action app Action.ScrollDown
        = Except.ok (sync_reading_position app))
    ∧ (app.state.current_book = some "Gen" →
      app.state.current_chapter = some 1 →
      app.current_verse_index = 0 →
      handle_action app Action.ScrollUp
        = Except.ok (sync_reading_position app))
    ∧ (sync_reading_position app).state.current_book = app.state.current_book
    ∧ (sync_reading_position app).state.current_chapter
        = app.state.current_chapter
    ∧ (sync_reading_position app).current_verse_index
        = app.current_verse_index := by
  refine ⟨?_, ?_, rfl, rfl, rfl⟩
  · intro ch hbR hc22 herr hcc hvi
    have hnext : try_next_book app = Except.ok app := by
      unfold try_next_book
      rw [hbR]
      dsimp only
      rw [findIdx_Rev]
      dsimp only
      rw [if_neg (by decide)]
    have hsd : scrollDownReader app = Except.ok app := by
      unfold scrollDownReader
      rw [hcc]
      dsimp only
      rw [if_neg hvi, hc22]
      dsimp only
      rw [hl, hbR]
      dsimp only
      rw [show (22 : Nat) + 1 = 23 from rfl, herr]
      exact hnext
    rw [handle_action_closed app Action.ScrollDown hsel htp hset hhelp]
    have hbase : handle_action_base app Action.ScrollDown
        = scrollDownReader app := rfl
    rw [hbase, hsd]
  · intro hbG hc1 hvi0
    have hprev : try_previous_book app = Except.ok app := by
      unfold try_previous_book
      rw [hbG]
      dsimp only
      rw [findIdx_Gen]
      dsimp only
      rw [if_neg (by decide)]
    have hsu : scrollUpReader app = Except.ok app := by
      unfold scrollUpReader
      rw [if_neg (by omega), hc1]
      dsimp only
      rw [if_neg (by decide)]
      exact hprev
    rw [handle_action_closed app Action.ScrollUp hsel htp hset hhelp]
    have hbase : handle_action_base app Action.ScrollUp
        = scrollUpReader app := rfl
    rw [hbase, hsu]

/-- C6 witness: both boundary no-ops evaluated on concrete states at
Revelation 22 verse 20 (of 21) and Genesis 1 verse 0. -/
theorem claim_C6_document_boundary_noop_witness :
    handle_action c6app Action.ScrollDown
        = Except.ok (sync_reading_position c6app)
    ∧ handle_action c6bapp Action.ScrollUp
        = Except.ok (sync_reading_position c6bapp) :=
  ⟨(claim_C6_document_boundary_noop c6app failLoader rfl rfl rfl rfl rfl).1
      (mkChapter "Rev" 22 21) rfl rfl rfl rfl (by decide),
   (claim_C6_document_boundary_noop c6bapp okLoader rfl rfl rfl rfl rfl).2.1
      rfl rfl rfl⟩

/-- One up/down intent inside the open theme picker changes at most the
previewed theme and the picker index. -/
theorem theme_updown_step (app : App) (a : Action)
    (ha : a = Action.ScrollUp ∨ a = Action.ScrollDown)
    (hsel : app.selector_open = false) (htp : app.theme_picker_open = true) :
    ∃ app2, handle_action app a = Except.ok app2 ∧
      app2 = { app with theme := app2.theme,
                        theme_picker_index := app2.theme_picker_index } := by
  have hd : handle_action app a = themePickerIntercept app a := by
    unfold handle_action
    rw [if_neg (by simp [hsel]), if_pos htp]
  rcases ha with rfl | rfl
  · rw [hd]
    unfold themePickerIntercept
    dsimp only
    split
    · exact ⟨_, rfl, rfl⟩
    · exact ⟨app, rfl, rfl⟩
  · rw [hd]
    unfold themePickerIntercept
    dsimp only
    split
    · exact ⟨_, rfl, rfl⟩
    · exact ⟨app, rfl, rfl⟩

/-- Any sequence of up/down intents inside the open theme picker changes
at most the previewed theme and the picker index. -/
theorem theme_updown_processActions (acts : List Action) (app : App)
    (hall : ∀ a ∈ acts, a = Action.ScrollUp ∨ a = Action.ScrollDown)
    (hsel : app.selector_open = false) (htp : app.theme_picker_open = true) :
    ∃ app1, processActions app acts = Except.ok app1 ∧
      app1 = { app with theme := app1.theme,
                        theme_picker_index := app1.theme_picker_index } := by
  induction acts generalizing app with
  | nil => exact ⟨app, rfl, rfl⟩
  | cons a rest ih =>
    obtain ⟨app2, h2, he2⟩ :=
      theme_updown_step app a (hall a (by simp)) hsel htp
    have hsel2 : app2.selector_open = false := by rw [he2]; exact hsel
    have htp2 : app2.theme_picker_open = true := by rw [he2]; exact htp
    obtain ⟨app1, h1, he1⟩ :=
      ih app2 (fun x hx => hall x (List.mem_cons_of_mem a hx)) hsel2 htp2
    refine ⟨app1, ?_, ?_⟩
    · show (match handle_action app a with
        | .ok x => processActions x rest
        | .error e => .error e) = Except.ok app1
      rw [h2]
      exact h1
    · calc app1
          = { app2 with theme := app1.theme,
                        theme_picker_index := app1.theme_picker_index } := he1
        _ = { ({ app with theme := app2.theme,
                          theme_picker_index := app2.theme_picker_index } : App)
                with theme := app1.theme,
                     theme_picker_index := app1.theme_picker_index } := by
            rw [← he2]
        _ = { app with theme := app1.theme,
                       theme_picker_index := app1.theme_picker_index } := rfl

/-- Escape inside the open theme picker restores the theme recorded in
settings and closes the picker. -/
theorem theme_picker_escape (app : App) (hsel : app.selector_open = false)
    (htp : app.theme_picker_open = true) :
    handle_action app Action.Escape = Except.ok { app with
      theme := get_theme app.settings.theme, theme_picker_open := false } := by
  unfold handle_action
  rw [if_neg (by simp [hsel]), if_pos htp]
  rfl

/-- C9: while the theme picker is open, any sequence of up/down intents
touches only the previewed theme and the picker index — never the saved
settings — and a final Escape restores the active theme to the one in
saved settings and closes the picker, so a cancelled session leaves the
settings (and the reading state) exactly as they were. -/
theorem claim_C9_theme_picker_cancel (app : App) (acts : List Action)
    (hsel : app.selector_open = false) (htp : app.theme_picker_open = true)
    (hall : ∀ a ∈ acts, a = Action.ScrollUp ∨ a = Action.ScrollDown) :
    ∃ app1 app2,
      processActions app acts = Except.ok app1 ∧
      app1 = { app with theme := app1.theme,
                        theme_picker_index := app1.theme_picker_index } ∧
      app1.settings = app.settings ∧
      handle_action app1 Action.Escape = Except.ok app2 ∧
      app2.settings = app.settings ∧
      app2.theme = get_theme app.settings.theme ∧
      app2.theme_picker_open = false ∧
      app2.state = app.state := by
  obtain ⟨app1, h1, he1⟩ := theme_updown_processActions acts app hall hsel htp
  have hsel1 : app1.selector_open = false := by rw [he1]; exact hsel
  have htp1 : app1.theme_picker_open = true := by rw [he1]; exact htp
  have hsettings1 : app1.settings = app.settings := by rw [he1]
  have hstate1 : app1.state = app.state := by rw [he1]
  refine ⟨app1, _, h1, he1, hsettings1,
    theme_picker_escape app1 hsel1 htp1, ?_, ?_, rfl, ?_⟩
  · show app1.settings = app.settings
    exact hsettings1
  · show get_theme app1.settings.theme = get_theme app.settings.theme
    rw [hsettings1]
  · show app1.state = app.state
    exact hstate1

/-- C9 witness: previewing down then up from the concrete Nord state and
cancelling leaves settings and state untouched and the theme back at
Nord. -/
theorem claim_C9_theme_picker_cancel_witness :
    ∃ app1 app2,
      processActions c9app [Action.ScrollDown, Action.ScrollUp]
          = Except.ok app1 ∧
      app1 = { c9app with theme := app1.theme,
                          theme_picker_index := app1.theme_picker_index } ∧
      app1.settings = c9app.settings ∧
      handle_action app1 Action.Escape = Except.ok app2 ∧
      app2.settings = c9app.settings ∧
      app2.theme = get_theme c9app.settings.theme ∧
      app2.theme_picker_open = false ∧
      app2.state = c9app.state :=
  claim_C9_theme_picker_cancel c9app [Action.ScrollDown, Action.ScrollUp]
    rfl rfl (by decide)

end Biblios
